/-
Verification of the tprc-au/client-portal backend (src/server.py) against its
natural-language specification (spec.md).

The Python source is shallowly embedded: CRM property bags become association
lists of strings, outbound CRM calls become oracle parameters (an `Except`
value models a call that may raise, an `Option` models a guarded call whose
failure is swallowed), and Python `try/except` blocks become explicit matches
on those values.  Each definition cites the source lines it embeds.
-/
import Mathlib

/-- A CRM property bag: the `properties` dict of a record, modelled as an
association list from property name to string value.  A key that is absent
from the list models a missing CRM property (src/server.py passim). -/
abbrev PropBag := List (String × String)

/-- `getProp props k` models Python `props.get(k)`: `some v` when the key is
present, `none` when it is absent. -/
def getProp (props : PropBag) (k : String) : Option String :=
  (props.find? (fun p => p.1 == k)).map (fun p => p.2)

/-- `getPropD props k d` models Python `props.get(k, d)`. -/
def getPropD (props : PropBag) (k : String) (d : String) : String :=
  (getProp props k).getD d

/-- Python substring membership on lists of characters:
`listContains needle hay` models `needle in hay`. -/
def listContains (needle : List Char) : List Char → Bool
  | [] => needle.isEmpty
  | c :: t => needle.isPrefixOf (c :: t) || listContains needle t

/-- Python substring test on strings: `pyIn needle hay` models
`needle in hay` for strings. -/
def pyIn (needle hay : String) : Bool :=
  listContains needle.data hay.data

/-- Python `str.lower()` (ASCII, which covers every comparison in the
source), over the character list so that it evaluates inside proofs. -/
def pyLower (s : String) : String :=
  String.mk (s.data.map Char.toLower)

/-- Python `str.strip()`: leading and trailing whitespace removed. -/
def pyStrip (s : String) : String :=
  String.mk
    (((s.data.dropWhile Char.isWhitespace).reverse.dropWhile Char.isWhitespace).reverse)

/-- Worker for `pySplit`: splits a character list on the first occurrence
of `sep`, repeatedly.  `fuel` is a step bound; `pySplit` passes the list
length, which always suffices since every step consumes at least one
character. -/
def pySplitGo (sep : List Char) : Nat → List Char → List Char → List (List Char)
  | _, [], acc => [acc.reverse]
  | 0, l, acc => [acc.reverse ++ l]
  | fuel + 1, c :: rest, acc =>
    if sep ≠ [] ∧ sep.isPrefixOf (c :: rest) then
      acc.reverse :: pySplitGo sep fuel (rest.drop (sep.length - 1)) []
    else pySplitGo sep fuel rest (c :: acc)

/-- Python `s.split(sep)` for a non-empty separator: keeps empty tokens,
and yields `[""]` on the empty string, like Python. -/
def pySplit (s sep : String) : List String :=
  (pySplitGo sep.data s.data.length s.data []).map String.mk

/-- Joins character lists with a separator (worker for `pyReplace`). -/
def joinWith (sep : List Char) : List (List Char) → List Char
  | [] => []
  | [x] => x
  | x :: y :: xs => x ++ sep ++ joinWith sep (y :: xs)

/-- Python `s.replace(old, new)` for a non-empty `old`, as
`new.join(s.split(old))`. -/
def pyReplace (s old new : String) : String :=
  String.mk (joinWith new.data (pySplitGo old.data s.data.length s.data []))

/-- One entry of an association edge `associationTypes` array
(spec section 6: association endpoints return
`{results: [{toObjectId, associationTypes: [{label?}]}]}`).
`label = none` models an entry without a label (a structural type). -/
structure AssociationType where
  label : Option String
deriving DecidableEq, Repr

/-- One association edge returned by the CRM associations API:
`{toObjectId, associationTypes}` (src/server.py lines 363-388, 656-707). -/
structure AssocEdge where
  toObjectId : String
  associationTypes : List AssociationType
deriving DecidableEq, Repr

/-- `(assoc_type.get('label') or '').lower() == 'recommended'`
(src/server.py lines 376-379). -/
def labelIsRecommended (t : AssociationType) : Bool :=
  pyLower (t.label.getD "") == "recommended"

/-- `any(... for assoc_type in association_types)` over `labelIsRecommended`
(src/server.py lines 376-379): the edge bears a "Recommended" label. -/
def hasRecommendedLabel (e : AssocEdge) : Bool :=
  e.associationTypes.any labelIsRecommended

/-- `[at.get('label') for at in association_types if at.get('label')]`
(src/server.py lines 384, 417, 707): the truthy labels of a types array. -/
def labelsOfTypes (ts : List AssociationType) : List String :=
  ts.filterMap (fun t =>
    match t.label with
    | some s => if s = "" then none else some s
    | none => none)

/-- The `existing_labels` extraction of `update_association_label`
(src/server.py line 707), applied to an edge. -/
def existingLabels (e : AssocEdge) : List String :=
  labelsOfTypes e.associationTypes

/-- A write issued by `update_association_label` against the CRM
(src/server.py lines 725-747): the DELETE of the structural association
followed by the batch PUT recreating it with a list of labels. -/
inductive CrmWrite where
  | deleteAssoc
  | putAssoc (labels : List String)
deriving DecidableEq, Repr

/-- The result dict returned by `HubSpotClient.update_association_label`
(src/server.py lines 750-763). -/
structure LabelUpdateResult where
  success : Bool
  message : String
  labels : List String
  association_updated : Bool
deriving DecidableEq, Repr

/-- `HubSpotClient.update_association_label`, the label-mutation core
(src/server.py lines 706-763), given the current labels of the target
(application, job order) edge.  If the requested label is already present
the call returns an already-exists result and issues no CRM write
(lines 756-763); otherwise it computes
`all_labels = list(set(existing_labels + [label]))` (line 736, embedded as
a first-occurrence dedup since set order is immaterial to the label set),
deletes the existing association and recreates it with every label in
`all_labels` (lines 725-747).  Returns the result dict together with the
list of CRM writes issued. -/
def update_association_label (existing_labels : List String) (label : String) :
    LabelUpdateResult × List CrmWrite :=
  if label ∈ existing_labels then
    ({ success := true
       message := "Association label \"" ++ label ++ "\" already exists"
       labels := existing_labels
       association_updated := false }, [])
  else
    let all_labels := (existing_labels ++ [label]).dedup
    ({ success := true
       message := "Association label \"" ++ label ++ "\" added successfully"
       labels := all_labels
       association_updated := true }, [CrmWrite.deleteAssoc, CrmWrite.putAssoc all_labels])

/-- The label set on the edge after `update_association_label` runs: when a
PUT is issued the edge is recreated carrying exactly `all_labels`
(src/server.py lines 735-747); when no write is issued the labels are
unchanged (lines 756-763). -/
def edgeLabelsAfter (existing_labels : List String) (label : String) : List String :=
  ((update_association_label existing_labels label).1).labels

/-- `HubSpotClient.determine_application_status` (src/server.py lines
769-796), translated clause for clause: pipeline-stage groups first, then
the truthy explicit `application_status` property returned verbatim, then
lifecycle-stage groups, then the default. -/
def determine_application_status (props : PropBag) : String :=
  let pipeline_stage := getPropD props "hs_pipeline_stage" ""
  if pipeline_stage ∈ ["new", "open", "qualified", "presentation_scheduled",
      "decision_maker_bought-in"] then "Active"
  else if pipeline_stage ∈ ["closed_won", "closed_lost"] then "Inactive"
  else if pipeline_stage ∈ ["appointment_scheduled", "qualified_to_buy"] then "Issues"
  else if (getProp props "application_status").getD "" ≠ "" then
    (getProp props "application_status").getD ""
  else
    let lifecycle_stage := getPropD props "lifecyclestage" ""
    if lifecycle_stage ∈ ["lead", "marketingqualifiedlead", "salesqualifiedlead"] then
      "Active"
    else if lifecycle_stage ∈ ["customer", "evangelist"] then "Inactive"
    else if lifecycle_stage ∈ ["opportunity"] then "Issues"
    else "Active"

/-- The candidate dict built by `HubSpotClient.format_candidate`
(src/server.py lines 1033-1067).  `α` is the type of parsed JSON values
(the results of `json.loads`). -/
structure CandidateRecord (α : Type) where
  id : String
  name : String
  first_name : String
  last_name : String
  email : String
  phone : String
  age : String
  location : String
  professional_summary : String
  skills : List String
  languages : List String
  work_experience : α
  education : α
  status : String
deriving DecidableEq, Repr

/-- `props.get(k, '').split(',') if props.get(k) else []`
(src/server.py lines 1057-1060): a comma-delimited list property, empty
when the property is missing or falsy. -/
def splitListProp (props : PropBag) (k : String) : List String :=
  match getProp props k with
  | some s => if s = "" then [] else pySplit s ","
  | none => []

/-- `HubSpotClient.format_candidate` (src/server.py lines 1033-1067).
`jsonLoads` stands for the `json.loads` library call; a `none` result
models the exception it raises on unparsable input, which propagates to
the caller, so the whole function returns `none` in that case.  Both
JSON-valued fields default to the literal `"[]"` when the property is
absent (lines 1062-1064). -/
def format_candidate {α : Type} (jsonLoads : String → Option α)
    (id : String) (props : PropBag) : Option (CandidateRecord α) :=
  match jsonLoads (getPropD props "work_experience" "[]"),
      jsonLoads (getPropD props "education" "[]") with
  | some we, some ed =>
    some
      { id := id
        name := pyStrip (getPropD props "firstname" "" ++ " " ++ getPropD props "lastname" "")
        first_name := getPropD props "firstname" ""
        last_name := getPropD props "lastname" ""
        email := getPropD props "email" ""
        phone := getPropD props "phone" ""
        age := getPropD props "age" ""
        location := getPropD props "location" ""
        professional_summary := getPropD props "professional_summary" ""
        skills := splitListProp props "skills"
        languages := splitListProp props "languages"
        work_experience := we
        education := ed
        status := "available" }
  | _, _ => none

/-- The job-order dict built by `HubSpotClient.format_job_order`
(src/server.py lines 990-1031).  `company_id` models the key the callers
add to the dict afterwards (lines 276, 322); `format_job_order` itself
leaves it unset. -/
structure JobOrderRecord where
  id : String
  title : String
  description : String
  position_type : String
  location : String
  status : String
  created_date : String
  deadline : String
  essential_requirements : List String
  preferred_requirements : List String
  salary_range : String
  benefits : String
  candidate_count : Nat
  company_id : Option String := none
deriving DecidableEq, Repr

/-- `props.get(k, '').split('\n') if props.get(k) else []`
(src/server.py lines 1019-1024). -/
def splitLinesProp (props : PropBag) (k : String) : List String :=
  match getProp props k with
  | some s => if s = "" then [] else pySplit s "\n"
  | none => []

/-- `HubSpotClient.format_job_order` (src/server.py lines 990-1031).
`candidate_count` is the result of the guarded recommended-candidate fetch
of lines 995-1000 (an outbound call whose failure is caught and replaced
by 0); it is passed in because it is network input, not property-bag
logic. -/
def format_job_order (id : String) (props : PropBag) (candidate_count : Nat) :
    JobOrderRecord :=
  { id := id
    title := getPropD props "job_order_title" (getPropD props "title" "")
    description := getPropD props "job_description"
      (getPropD props "role_description" (getPropD props "description" ""))
    position_type := getPropD props "position_type" "Full-time"
    location := getPropD props "location" "Perth, Australia"
    status := getPropD props "employment_status" "Active"
    created_date := getPropD props "hs_createdate" (getPropD props "created_date" "")
    deadline := getPropD props "deadline" ""
    essential_requirements := splitLinesProp props "essential_requirements"
    preferred_requirements := splitLinesProp props "preferred_requirements"
    salary_range := getPropD props "salary_range" ""
    benefits := getPropD props "benefits" ""
    candidate_count := candidate_count }

/-- The candidate dict built by `HubSpotClient.format_candidate_from_application`
(src/server.py lines 528-586). -/
structure AppCandidateRecord where
  id : String
  application_id : String
  name : String
  email : String
  status : String
  application_status : String
  application_date : String
  age : Nat
  location : String
  professional_summary : String
  skills : List String
  job_order_id : Option String
deriving DecidableEq, Repr

/-- `HubSpotClient.format_candidate_from_application`
(src/server.py lines 528-586), translated clause for clause: name
extraction from `application_name`, the synthesized email, the hardcoded
demo age and skills keyed on the name, the status normalization and the
selected/active display mapping. -/
def format_candidate_from_application (id : String) (props : PropBag) :
    AppCandidateRecord :=
  let app_name := getPropD props "application_name" ""
  let candidate_name :=
    if pyIn " - " app_name then (pySplit app_name " - ").headD ""
    else if pyStrip app_name ≠ "" then pyStrip app_name
    else "Applicant " ++ id
  let safe_name :=
    if candidate_name ≠ "" then pyReplace (pyLower candidate_name) " " "."
    else "applicant." ++ id
  let ageSkills : Nat × List String :=
    if pyIn "Sarah" candidate_name then
      (28, ["Kitchen Management", "Food Safety", "Team Leadership", "Menu Planning"])
    else if pyIn "Michael" candidate_name then
      (32, ["Production Management", "Staff Training", "Quality Control",
        "Inventory Management"])
    else
      (30, ["Food Service", "Team Collaboration", "Customer Service"])
  let raw_status :=
    match getProp props "application_status" with
    | some s => if s = "" then "active" else s
    | none => "active"
  let status0 :=
    if raw_status ≠ "" then pyReplace (pyLower raw_status) "-" "_" else "active"
  let status :=
    if status0 = "selected" then "approved"
    else if status0 = "active" then "pending_review"
    else status0
  { id := id
    application_id := id
    name := candidate_name
    email := safe_name ++ "@email.com"
    status := status
    application_status := determine_application_status props
    application_date := getPropD props "hs_createdate" ""
    age := ageSkills.1
    location := "Perth, Australia"
    professional_summary :=
      "Professional applicant with relevant experience in the food industry."
    skills := ageSkills.2
    job_order_id := none }

/-- The `job_specific_labels` scan of `get_candidates_for_job_order`
(src/server.py lines 413-418, 431-436): the labels of the first edge in the
associations response whose `toObjectId` equals the application id. -/
def jobSpecificLabels (edges : List AssocEdge) (appId : String) : List String :=
  match edges.find? (fun e => e.toObjectId == appId) with
  | some e => labelsOfTypes e.associationTypes
  | none => []

/-- A candidate entry in the list returned by `get_candidates_for_job_order`.
The associations path (src/server.py lines 390-453) builds a candidate dict
from the application/contact details (abstracted as `detail : δ`, the output
of the per-application detail fetches) and stamps `application_id` and
`association_labels` onto it (lines 419-421, 437-438); the fallback search
path (lines 464-493) returns `format_candidate_from_application` output
unmodified. -/
inductive PortalCandidate (δ : Type) where
  | fromEdge (application_id : String) (association_labels : List String) (detail : δ)
  | fromSearch (record : AppCandidateRecord)
deriving DecidableEq, Repr

/-- The application id carried by a returned candidate
(`application_id`, src/server.py lines 421, 438, 574). -/
def PortalCandidate.applicationId {δ : Type} : PortalCandidate δ → String
  | .fromEdge a _ _ => a
  | .fromSearch r => r.application_id

/-- `HubSpotClient.get_candidates_for_job_order` (src/server.py lines
358-504).  Oracles: `assocResp` is the associations API call of lines
364-367 (`Except.error` models the exception caught at line 459);
`fetchDetail` is the per-application detail resolution of lines 395-443
(application record, contact association, contact record, formatting),
whose failure is caught per iteration and skipped (lines 444-447);
`searchResp` is the fallback search of lines 466-481, whose failure is
caught at lines 495-496.  Every failure path falls through to
`return []` (lines 502-504), so the function itself never raises. -/
def get_candidates_for_job_order {δ : Type}
    (assocResp : Except String (List AssocEdge))
    (fetchDetail : String → Except String δ)
    (searchResp : Except String (List (String × PropBag))) :
    Except String (List (PortalCandidate δ)) :=
  match assocResp with
  | Except.ok edges =>
    -- lines 369-388: keep only edges bearing a "Recommended" label
    let recommended := edges.filter hasRecommendedLabel
    if recommended.isEmpty then Except.ok []
    else
      -- lines 390-447: resolve details per recommended edge, skipping failures
      let applications := recommended.filterMap (fun e =>
        ((fetchDetail e.toObjectId).toOption).map (fun d =>
          PortalCandidate.fromEdge e.toObjectId (jobSpecificLabels edges e.toObjectId) d))
      if applications.isEmpty then Except.ok [] else Except.ok applications
  | Except.error _e =>
    -- lines 459-496: alternative search, all applications kept unfiltered
    match searchResp with
    | Except.ok results =>
      if results.isEmpty then Except.ok []
      else Except.ok (results.map (fun r =>
        PortalCandidate.fromSearch (format_candidate_from_application r.1 r.2)))
    | Except.error _e2 => Except.ok []

/-- `HubSpotClient.get_job_orders_for_company` (src/server.py lines 240-336).
Oracles: `companyResp` is `get_company_by_id` (line 246, uncaught failure
reaches the handler at lines 331-332); `assocResp` is the associations call
of lines 253-254 (failure caught at lines 286-287); `jobFetch` fetches one
job order record (lines 269-274, failure caught per iteration at lines
278-280); `countFor` is the guarded recommended-candidate count inside
`format_job_order` (lines 995-1000); `allJobsResp` is the method-2 listing
of lines 289-296 (failure caught at lines 331-332).  Every failure path
falls through to `return []` (lines 334-336). -/
def get_job_orders_for_company
    (companyResp : Except String PropBag)
    (assocResp : Except String (List AssocEdge))
    (jobFetch : String → Except String PropBag)
    (countFor : String → Nat)
    (allJobsResp : Except String (List (String × PropBag)))
    (company_id : String) :
    Except String (List JobOrderRecord) :=
  match companyResp with
  | Except.error _e => Except.ok []
  | Except.ok companyProps =>
    let company_name := getPropD companyProps "name" ""
    -- method 1 (lines 251-287): association edges, then per-job fetches
    let method1 : List JobOrderRecord :=
      match assocResp with
      | Except.error _ => []
      | Except.ok edges =>
        let job_order_ids := edges.map (fun e => e.toObjectId)
        if job_order_ids.isEmpty then []
        else job_order_ids.filterMap (fun jid =>
          ((jobFetch jid).toOption).map (fun props =>
            { format_job_order jid props (countFor jid) with company_id := some company_id }))
    if ¬ method1.isEmpty then Except.ok method1
    else
      -- method 2 (lines 289-327): list all job orders and filter by company
      match allJobsResp with
      | Except.error _e => Except.ok []
      | Except.ok jobs =>
        let matched := jobs.filterMap (fun r =>
          let props := r.2
          let job_title := getPropD props "job_order_title" ""
          let job_company_name := getPropD props "company_name" ""
          let job_company_id := getPropD props "company_id" ""
          let is_match :=
            (job_company_id == company_id) ||
            ((company_name != "") && (job_company_name != "") &&
              pyIn (pyLower company_name) (pyLower job_company_name)) ||
            ((company_name != "") && (job_title != "") &&
              pyIn (pyLower company_name) (pyLower job_title))
          if is_match then
            some { format_job_order r.1 props (countFor r.1) with
                   company_id := some company_id }
          else none)
        Except.ok matched

/-- The outcome of `jwt.decode` as seen by `require_auth` (src/server.py
lines 1680-1689): expiry (`jwt.ExpiredSignatureError`), any other decode
failure (`jwt.InvalidTokenError`, covering malformed tokens and invalid
signatures), or success with a claims payload. -/
inductive DecodeOutcome where
  | expired
  | invalid
  | ok (payload : PropBag)
deriving DecidableEq, Repr

/-- The observable outcome of the `require_auth` wrapper: a 401 JSON
rejection, or the wrapped handler invoked with `request.user_id` and
`request.company_id` attached. -/
inductive AuthOutcome where
  | reject (status : Nat) (error : String)
  | proceed (user_id company_id : String)
deriving DecidableEq, Repr

/-- `require_auth` (src/server.py lines 1669-1696).  A missing header is
rejected at lines 1674-1676.  `token = auth_header.split(' ')[1]` (line
1679) raises IndexError when the header has no second space-separated
part; that lands in the generic handler of lines 1690-1692.  The jwt
handlers of lines 1684-1689 map expiry and invalidity to their dedicated
401 bodies.  On decode success, `payload['user_id']` or
`payload['company_id']` (lines 1681-1682) raises KeyError when a claim is
missing, again landing in the generic handler; otherwise the wrapped
handler runs (line 1694). -/
def require_auth (auth_header : Option String)
    (decode : String → DecodeOutcome) : AuthOutcome :=
  match auth_header with
  | none => AuthOutcome.reject 401 "No authorization header"
  | some h =>
    match (pySplit h " ")[1]? with
    | none => AuthOutcome.reject 401 "Authentication failed"
    | some token =>
      match decode token with
      | DecodeOutcome.expired => AuthOutcome.reject 401 "Token expired"
      | DecodeOutcome.invalid => AuthOutcome.reject 401 "Invalid token"
      | DecodeOutcome.ok payload =>
        match getProp payload "user_id", getProp payload "company_id" with
        | some u, some c => AuthOutcome.proceed u c
        | some _, none => AuthOutcome.reject 401 "Authentication failed"
        | none, _ => AuthOutcome.reject 401 "Authentication failed"

/-- The outcome of the login route: an error response carrying no token, or
a 200 response carrying a freshly minted token with these claims
(src/server.py lines 1766-1790). -/
inductive LoginResult where
  | err (status : Nat) (message : String)
  | okToken (user_id company_id email name company_name : String)
deriving DecidableEq, Repr

/-- The `login` route (src/server.py lines 1734-1888).  `email` and
`password` model `data.get(...)` on the request body (`none` = absent).
Lines 1742-1743: missing or empty email/password is a 400.  Lines
1745-1749: the allow-list consultation (`get_authorized_emails`, lines
85-102, abstracted as the `authorized_emails` list it returns) rejects
with 403 before anything else.  Lines 1751-1790: the demo-credential
check minting a token.  The HubSpot-backed tail of lines 1792-1888
(contact lookup, company resolution, token minting, the invalid-credential
401 and the 500 handler) requires CRM access and is abstracted as the
oracle `hubspot_branch`; it is only reached after the allow-list and
demo checks. -/
def login (authorized_emails : List String) (email password : Option String)
    (hubspot_branch : String → LoginResult) : LoginResult :=
  let e := email.getD ""
  let p := password.getD ""
  if e = "" ∨ p = "" then LoginResult.err 400 "Email and password required"
  else if e ∉ authorized_emails then
    LoginResult.err 403 "Access denied. Contact TPRC for portal access."
  else if e = "tim.schibli@tprc.com.au" ∧ p = "tprc2025" then
    LoginResult.okToken "tim_schibli_001" "503464912" e "Tim Schibli" "Salsa Bar & Grill"
  else hubspot_branch e

/-- The dict that the `return` of `HubSpotClient.approve_candidate` would
build (src/server.py lines 1178-1185).  It is never constructed: see
`HubSpotClient.approve_candidate`. -/
structure ApproveResponse where
  success : Bool
  message : String
  candidate_id : String
  job_order_id : String
  workflow_triggered : Bool
deriving DecidableEq, Repr

/-- `HubSpotClient.approve_candidate` (src/server.py lines 1130-1191).
`assocResp` is the associations lookup of lines 1134-1135 (uncaught
failure is re-raised by the handler at lines 1187-1191); a missing
association raises at lines 1144-1147.  The status PATCH of lines
1162-1173 is guarded by its own try/except, so `patchResp` is discarded
either way.  The workflow trigger call is commented out in the source
(line 1176), so the name `workflow_result` read in the return dict at
line 1184 is unbound: reaching the return raises NameError, which the
outer handler re-raises.  The function therefore never returns a value. -/
def HubSpotClient.approve_candidate
    (assocResp : Except String (List AssocEdge))
    (patchResp : Except String Unit)
    (job_order_id candidate_id : String) : Except String ApproveResponse :=
  match assocResp with
  | Except.error e => Except.error e
  | Except.ok edges =>
    match edges.find? (fun a => a.toObjectId == candidate_id) with
    | none =>
      Except.error ("Association between job order " ++ job_order_id ++
        " and candidate " ++ candidate_id ++ " not found")
    | some _assoc =>
      let _ := patchResp
      Except.error "NameError: name workflow_result is not defined"

/-- The dict returned by `HubSpotClient.trigger_workflow` (src/server.py
lines 1193-1223): success with enrollment data, or `success: False` when
the enrollment call fails (the except at lines 1221-1223 swallows the
error). -/
def HubSpotClient.trigger_workflow (enrollResp : Except String Unit) : Bool :=
  match enrollResp with
  | Except.ok _ => true
  | Except.error _ => false

/-- The dict returned by `HubSpotClient.reject_candidate`
(src/server.py lines 1262-1268). -/
structure RejectResponse where
  success : Bool
  message : String
  candidate_id : String
  workflow_triggered : Bool
deriving DecidableEq, Repr

/-- `HubSpotClient.reject_candidate` (src/server.py lines 1225-1272).  The
status PATCH (lines 1245-1256) is guarded and its failure only logged;
the workflow trigger (lines 1258-1260) goes through `trigger_workflow`,
which converts failure into `success: False`, so the method returns its
success dict in both cases. -/
def HubSpotClient.reject_candidate
    (patchResp : Except String Unit) (workflowResp : Except String Unit)
    (candidate_id : String) : Except String RejectResponse :=
  let _ := patchResp
  let workflow_success := HubSpotClient.trigger_workflow workflowResp
  Except.ok
    { success := true
      message := "Candidate rejected, status updated, and rejection workflow triggered"
      candidate_id := candidate_id
      workflow_triggered := workflow_success }

/-- A JSON response of a route handler: success body or error body with
status code. -/
inductive RouteResponse where
  | okJson (status : Nat) (message : String)
  | errJson (status : Nat) (error : String)
deriving DecidableEq, Repr

/-- The `approve_candidate` route handler (src/server.py lines 2164-2201).
`put_status` and `put_body` are the status code and text of the CRM PUT
response (lines 2185).  When the status is not in [200, 201, 204] the
handler raises `Exception("Failed to update association: " + response.text)`
(lines 2187-2189), and the except clause returns a 500 body embedding
`str(e)` verbatim (lines 2198-2201). -/
def approve_candidate_route (demo_company : Bool)
    (put_status : Nat) (put_body : String) : RouteResponse :=
  if demo_company then
    RouteResponse.okJson 200 "Demo candidate approved successfully"
  else if put_status = 200 ∨ put_status = 201 ∨ put_status = 204 then
    RouteResponse.okJson 200 "Candidate approved successfully"
  else
    RouteResponse.errJson 500
      ("Failed to approve candidate: Failed to update association: " ++ put_body)

/-! ## Helper lemmas -/

theorem isPrefixOf_self {α : Type} [BEq α] [LawfulBEq α] (l : List α) :
    l.isPrefixOf l = true := by
  induction l with
  | nil => simp
  | cons a t ih => simp [ih]

theorem listContains_self (n : List Char) : listContains n n = true := by
  cases n with
  | nil => rfl
  | cons c t => simp [listContains, isPrefixOf_self]

theorem listContains_append_self (p n : List Char) :
    listContains n (p ++ n) = true := by
  induction p with
  | nil => simpa using listContains_self n
  | cons c t ih => simp [listContains, ih]

theorem pyIn_append_self (p n : String) : pyIn n (p ++ n) = true := by
  simp [pyIn, String.data_append, listContains_append_self]

theorem edgeLabelsAfter_eq (existing : List String) (label : String) :
    edgeLabelsAfter existing label =
      (update_association_label existing label).1.labels := rfl

theorem mem_edgeLabelsAfter_self (existing : List String) (label : String) :
    label ∈ edgeLabelsAfter existing label := by
  unfold edgeLabelsAfter update_association_label
  by_cases h : label ∈ existing
  · simp [h]
  · simp [h, List.mem_dedup]

/-! ## C1 -/

/-- C1: the claim states that `setDecisionLabel` with "Selected" and then
"Rejected" on the same edge leaves exactly one terminal decision label
("Rejected"), the mutation removing any conflicting terminal label first.
The code does the opposite: `update_association_label` merges the new
label into the existing set (`all_labels = list(set(existing_labels +
[label]))`, src/server.py line 736) and never removes a label, so after
the two calls the edge carries both "Selected" and "Rejected". -/
theorem update_association_label_keeps_conflicting_terminal_label :
    edgeLabelsAfter (edgeLabelsAfter [] "Selected") "Rejected" =
      ["Selected", "Rejected"] ∧
    "Selected" ∈ edgeLabelsAfter (edgeLabelsAfter [] "Selected") "Rejected" ∧
    "Rejected" ∈ edgeLabelsAfter (edgeLabelsAfter [] "Selected") "Rejected" := by
  refine ⟨?_, ?_, ?_⟩ <;> simp [edgeLabelsAfter, update_association_label, List.dedup]

/-! ## C2 -/

/-- C2: calling `update_association_label` a second time with the same
label on the same edge is idempotent: whatever the edge state before the
first call, the second call issues no CRM write, reports that the label
already exists, reports `association_updated = False`, and leaves the
edge label set unchanged (src/server.py lines 756-763). -/
theorem update_association_label_idempotent (existing : List String) (label : String) :
    (update_association_label (edgeLabelsAfter existing label) label).2 = [] ∧
    (update_association_label (edgeLabelsAfter existing label) label).1.message =
      "Association label \"" ++ label ++ "\" already exists" ∧
    (update_association_label (edgeLabelsAfter existing label) label).1.association_updated
      = false ∧
    edgeLabelsAfter (edgeLabelsAfter existing label) label =
      edgeLabelsAfter existing label := by
  have hmem := mem_edgeLabelsAfter_self existing label
  rw [edgeLabelsAfter_eq] at hmem
  simp only [edgeLabelsAfter_eq]
  generalize (update_association_label existing label).1.labels = L at hmem ⊢
  refine ⟨?_, ?_, ?_, ?_⟩ <;>
    simp [update_association_label, hmem]

/-! ## C8 -/

/-- C8: the claim states that failures of non-critical side effects
(activity logging, workflow triggers) never fail the primary approve or
reject operation.  `HubSpotClient.reject_candidate` does satisfy this
(second conjunct: a failing workflow enrollment still yields a success
dict with `workflow_triggered = False`), but
`HubSpotClient.approve_candidate` crashes on its success path even when
every CRM call succeeds and no side effect was attempted: its return
statement reads `workflow_result`, whose defining call is commented out
(src/server.py lines 1176, 1184), so the method raises NameError and the
route returns a failure.  The spec itself flags this as a defect of the
reference implementation (spec.md section 9). -/
theorem approve_candidate_crashes_on_success_path :
    HubSpotClient.approve_candidate
        (Except.ok [{ toObjectId := "A1", associationTypes := [] }])
        (Except.ok ()) "J1" "A1" =
      Except.error "NameError: name workflow_result is not defined" ∧
    HubSpotClient.reject_candidate (Except.ok ()) (Except.error "workflow down") "A1" =
      Except.ok
        { success := true
          message := "Candidate rejected, status updated, and rejection workflow triggered"
          candidate_id := "A1"
          workflow_triggered := false } := by
  constructor <;> rfl

/-! ## C9 -/

/-- C9: the claim states that error bodies returned to the client never
contain the raw CRM error response payload.  The `approve_candidate`
route violates this: when the CRM PUT returns a non-2xx status, the
handler raises an exception whose message embeds `response.text`
(src/server.py lines 2187-2189) and the except clause interpolates
`str(e)` into the client-facing JSON error (lines 2198-2201), so for
every CRM response body that body reaches the client verbatim. -/
theorem approve_candidate_route_leaks_crm_error_body (put_body : String) :
    approve_candidate_route false 400 put_body =
      RouteResponse.errJson 500
        ("Failed to approve candidate: Failed to update association: " ++ put_body) ∧
    pyIn put_body
      ("Failed to approve candidate: Failed to update association: " ++ put_body)
      = true := by
  exact ⟨rfl, pyIn_append_self _ _⟩

/-! ## C3 -/

/-- C3: for every set of association edges returned by the CRM for a job
order, `get_candidates_for_job_order` surfaces only candidates built from
edges bearing a "Recommended" label: every returned candidate originates
from some input edge that has the label, and carries that edge's
application id and labels (src/server.py lines 369-393, 419-421). -/
theorem get_candidates_for_job_order_only_recommended {δ : Type}
    (edges : List AssocEdge) (fetchDetail : String → Except String δ)
    (searchResp : Except String (List (String × PropBag)))
    (cs : List (PortalCandidate δ))
    (h : get_candidates_for_job_order (Except.ok edges) fetchDetail searchResp
      = Except.ok cs) :
    ∀ c ∈ cs, ∃ e ∈ edges, hasRecommendedLabel e = true ∧
      ∃ d, c = PortalCandidate.fromEdge e.toObjectId
        (jobSpecificLabels edges e.toObjectId) d := by
  intro c hc
  simp only [get_candidates_for_job_order] at h
  by_cases h1 : (edges.filter hasRecommendedLabel).isEmpty
  · rw [if_pos h1] at h
    cases h
    cases hc
  · rw [if_neg h1] at h
    by_cases h2 : ((edges.filter hasRecommendedLabel).filterMap (fun e =>
        ((fetchDetail e.toObjectId).toOption).map (fun d =>
          PortalCandidate.fromEdge e.toObjectId
            (jobSpecificLabels edges e.toObjectId) d))).isEmpty
    · rw [if_pos h2] at h
      cases h
      cases hc
    · rw [if_neg h2] at h
      cases h
      rcases List.mem_filterMap.mp hc with ⟨e, he, hmap⟩
      rcases Option.map_eq_some'.mp hmap with ⟨d, _hd, hcd⟩
      rcases List.mem_filter.mp he with ⟨heEdges, heRec⟩
      exact ⟨e, heEdges, heRec, d, hcd.symm⟩

/-- Witness for C3: a CRM response with one "Recommended" edge and one
unlabelled edge, a detail fetch that always succeeds, yields exactly the
candidate built from the recommended edge, and the theorem applies to it. -/
theorem get_candidates_for_job_order_only_recommended_witness :
    ∃ e ∈ ([{ toObjectId := "A1",
              associationTypes := [{ label := some "Recommended" }] },
            { toObjectId := "A2", associationTypes := [] }] : List AssocEdge),
      hasRecommendedLabel e = true ∧
      ∃ d, PortalCandidate.fromEdge "A1" ["Recommended"] (37 : Nat) =
        PortalCandidate.fromEdge e.toObjectId
          (jobSpecificLabels
            [{ toObjectId := "A1",
               associationTypes := [{ label := some "Recommended" }] },
             { toObjectId := "A2", associationTypes := [] }] e.toObjectId) d :=
  get_candidates_for_job_order_only_recommended
    [{ toObjectId := "A1", associationTypes := [{ label := some "Recommended" }] },
     { toObjectId := "A2", associationTypes := [] }]
    (fun _ => Except.ok (37 : Nat)) (Except.ok [])
    [PortalCandidate.fromEdge "A1" ["Recommended"] 37] (by rfl)
    (PortalCandidate.fromEdge "A1" ["Recommended"] 37) (by decide)

/-! ## C10 -/

theorem get_candidates_for_job_order_isOk {δ : Type}
    (assocResp : Except String (List AssocEdge))
    (fetchDetail : String → Except String δ)
    (searchResp : Except String (List (String × PropBag))) :
    ∃ l, get_candidates_for_job_order assocResp fetchDetail searchResp
      = Except.ok l := by
  unfold get_candidates_for_job_order
  rcases assocResp with e | edges
  · rcases searchResp with e2 | results
    · exact ⟨[], rfl⟩
    · dsimp only
      split
      · exact ⟨_, rfl⟩
      · exact ⟨_, rfl⟩
  · dsimp only
    split
    · exact ⟨_, rfl⟩
    · split
      · exact ⟨_, rfl⟩
      · exact ⟨_, rfl⟩

theorem get_job_orders_for_company_isOk
    (companyResp : Except String PropBag)
    (assocResp : Except String (List AssocEdge))
    (jobFetch : String → Except String PropBag)
    (countFor : String → Nat)
    (allJobsResp : Except String (List (String × PropBag)))
    (company_id : String) :
    ∃ l, get_job_orders_for_company companyResp assocResp jobFetch countFor
      allJobsResp company_id = Except.ok l := by
  unfold get_job_orders_for_company
  rcases companyResp with e | props
  · exact ⟨[], rfl⟩
  · dsimp only
    split
    · exact ⟨_, rfl⟩
    · rcases allJobsResp with e2 | jobs
      · exact ⟨[], rfl⟩
      · exact ⟨_, rfl⟩

/-- C10: the list-returning resolver operations are total at their public
interface: for every combination of upstream outcomes they return a list
and never propagate an exception, and when the very first CRM lookup
fails they return the empty list, indistinguishable from "no results"
(src/server.py lines 331-336, 498-504). -/
theorem resolver_list_operations_total {δ : Type}
    (companyResp : Except String PropBag)
    (assocResp assocResp2 : Except String (List AssocEdge))
    (jobFetch : String → Except String PropBag)
    (countFor : String → Nat)
    (allJobsResp : Except String (List (String × PropBag)))
    (fetchDetail : String → Except String δ)
    (searchResp : Except String (List (String × PropBag)))
    (company_id failure failure2 failure3 : String) :
    (∃ l, get_job_orders_for_company companyResp assocResp jobFetch countFor
      allJobsResp company_id = Except.ok l) ∧
    (∃ l, get_candidates_for_job_order assocResp2 fetchDetail searchResp
      = Except.ok l) ∧
    get_job_orders_for_company (Except.error failure) assocResp jobFetch
      countFor allJobsResp company_id = Except.ok [] ∧
    get_candidates_for_job_order (δ := δ) (Except.error failure2) fetchDetail
      (Except.error failure3) = Except.ok [] := by
  refine ⟨get_job_orders_for_company_isOk _ _ _ _ _ _,
    get_candidates_for_job_order_isOk _ _ _, rfl, rfl⟩

/-! ## C4 -/

/-- C4 counterexample: the claim states that `determine_application_status`
always returns a value in {Active, Inactive, Issues}.  It does not: when
no pipeline-stage group matches and the explicit `application_status`
property is set, that property value is returned verbatim
(src/server.py lines 783-784), e.g. "Selected". -/
theorem determine_application_status_escapes_enumeration :
    determine_application_status [("application_status", "Selected")] = "Selected" ∧
    ¬("Selected" = "Active" ∨ "Selected" = "Inactive" ∨ "Selected" = "Issues") := by
  decide

/-- C4 amended: `determine_application_status` checks in strict priority
order — a recognized pipeline-stage mapping wins over the explicit status
property, which wins over the lifecycle-stage mapping, which wins over
the default "Active" — and its result is in {Active, Inactive, Issues}
except that a non-empty explicit `application_status` property outside a
recognized pipeline stage is returned verbatim, whatever its value
(src/server.py lines 769-796). -/
theorem determine_application_status_priority (props : PropBag) :
    (getPropD props "hs_pipeline_stage" "" ∈ ["new", "open", "qualified",
        "presentation_scheduled", "decision_maker_bought-in"] →
      determine_application_status props = "Active") ∧
    (getPropD props "hs_pipeline_stage" "" ∈ ["closed_won", "closed_lost"] →
      determine_application_status props = "Inactive") ∧
    (getPropD props "hs_pipeline_stage" "" ∈ ["appointment_scheduled", "qualified_to_buy"] →
      determine_application_status props = "Issues") ∧
    (getPropD props "hs_pipeline_stage" "" ∉ ["new", "open", "qualified",
        "presentation_scheduled", "decision_maker_bought-in"] →
      getPropD props "hs_pipeline_stage" "" ∉ ["closed_won", "closed_lost"] →
      getPropD props "hs_pipeline_stage" "" ∉ ["appointment_scheduled", "qualified_to_buy"] →
      getPropD props "application_status" "" ≠ "" →
      determine_application_status props = getPropD props "application_status" "") ∧
    (getPropD props "hs_pipeline_stage" "" ∉ ["new", "open", "qualified",
        "presentation_scheduled", "decision_maker_bought-in"] →
      getPropD props "hs_pipeline_stage" "" ∉ ["closed_won", "closed_lost"] →
      getPropD props "hs_pipeline_stage" "" ∉ ["appointment_scheduled", "qualified_to_buy"] →
      getPropD props "application_status" "" = "" →
      getPropD props "lifecyclestage" "" ∈ ["lead", "marketingqualifiedlead",
        "salesqualifiedlead"] →
      determine_application_status props = "Active") ∧
    (getPropD props "hs_pipeline_stage" "" ∉ ["new", "open", "qualified",
        "presentation_scheduled", "decision_maker_bought-in"] →
      getPropD props "hs_pipeline_stage" "" ∉ ["closed_won", "closed_lost"] →
      getPropD props "hs_pipeline_stage" "" ∉ ["appointment_scheduled", "qualified_to_buy"] →
      getPropD props "application_status" "" = "" →
      getPropD props "lifecyclestage" "" ∈ ["customer", "evangelist"] →
      determine_application_status props = "Inactive") ∧
    (getPropD props "hs_pipeline_stage" "" ∉ ["new", "open", "qualified",
        "presentation_scheduled", "decision_maker_bought-in"] →
      getPropD props "hs_pipeline_stage" "" ∉ ["closed_won", "closed_lost"] →
      getPropD props "hs_pipeline_stage" "" ∉ ["appointment_scheduled", "qualified_to_buy"] →
      getPropD props "application_status" "" = "" →
      getPropD props "lifecyclestage" "" ∈ ["opportunity"] →
      determine_application_status props = "Issues") ∧
    (getPropD props "hs_pipeline_stage" "" ∉ ["new", "open", "qualified",
        "presentation_scheduled", "decision_maker_bought-in"] →
      getPropD props "hs_pipeline_stage" "" ∉ ["closed_won", "closed_lost"] →
      getPropD props "hs_pipeline_stage" "" ∉ ["appointment_scheduled", "qualified_to_buy"] →
      getPropD props "application_status" "" = "" →
      getPropD props "lifecyclestage" "" ∉ ["lead", "marketingqualifiedlead",
        "salesqualifiedlead"] →
      getPropD props "lifecyclestage" "" ∉ ["customer", "evangelist"] →
      getPropD props "lifecyclestage" "" ∉ ["opportunity"] →
      determine_application_status props = "Active") ∧
    (determine_application_status props = "Active" ∨
      determine_application_status props = "Inactive" ∨
      determine_application_status props = "Issues" ∨
      determine_application_status props = getPropD props "application_status" "") := by
  refine ⟨?_, ?_, ?_, ?_, ?_, ?_, ?_, ?_, ?_⟩
  · intro h
    simp only [getPropD, List.mem_cons, List.not_mem_nil, or_false] at h
    rcases h with h | h | h | h | h <;>
      simp [determine_application_status, getPropD, h]
  · intro h
    simp only [getPropD, List.mem_cons, List.not_mem_nil, or_false] at h
    rcases h with h | h <;>
      simp [determine_application_status, getPropD, h]
  · intro h
    simp only [getPropD, List.mem_cons, List.not_mem_nil, or_false] at h
    rcases h with h | h <;>
      simp [determine_application_status, getPropD, h]
  · intro h1 h2 h3 h4
    simp_all [determine_application_status, getPropD, not_or]
  · intro h1 h2 h3 h4 h5
    simp only [getPropD, List.mem_cons, List.not_mem_nil, or_false] at h5
    rcases h5 with h5 | h5 | h5 <;>
      simp_all [determine_application_status, getPropD, not_or]
  · intro h1 h2 h3 h4 h5
    simp only [getPropD, List.mem_cons, List.not_mem_nil, or_false] at h5
    rcases h5 with h5 | h5 <;>
      simp_all [determine_application_status, getPropD, not_or]
  · intro h1 h2 h3 h4 h5
    simp only [getPropD, List.mem_cons, List.not_mem_nil, or_false] at h5
    simp_all [determine_application_status, getPropD, not_or]
  · intro h1 h2 h3 h4 h5 h6 h7
    simp_all [determine_application_status, getPropD, not_or]
  · simp only [determine_application_status, getPropD]
    split_ifs <;> simp

/-- Witness for C4: a record whose pipeline stage is "closed_won" and whose
explicit status is "Selected" classifies as "Inactive" — the
pipeline-stage mapping wins over the explicit status property. -/
theorem determine_application_status_priority_witness :
    determine_application_status
      [("hs_pipeline_stage", "closed_won"), ("application_status", "Selected")]
      = "Inactive" :=
  (determine_application_status_priority
    [("hs_pipeline_stage", "closed_won"), ("application_status", "Selected")]).2.1
    (by decide)

/-! ## C5 -/

/-- C5 counterexample: the claim states that a missing CRM property maps to
an empty string, empty list, or zero.  `format_job_order` instead fills
several missing fields with fixed non-empty fallbacks: location
"Perth, Australia", position type "Full-time", status "Active"
(src/server.py lines 1009-1014). -/
theorem format_job_order_nonempty_defaults :
    (format_job_order "J1" [] 0).location = "Perth, Australia" ∧
    (format_job_order "J1" [] 0).position_type = "Full-time" ∧
    (format_job_order "J1" [] 0).status = "Active" ∧
    ¬((format_job_order "J1" [] 0).location = "") := by
  decide

/-- C5 amended: for every property bag, the Record Mapper functions treat
each missing CRM property by substituting a fixed typed default and never
raise: `format_candidate` yields empty strings and empty lists (and the
parsed empty JSON array) for its missing fields, while `format_job_order`
and `format_candidate_from_application` substitute fixed non-empty
constants for some fields ("Full-time", "Perth, Australia", "Active",
demo skills and age).  The hypothesis on `jsonLoads` is the `json.loads`
library contract on the literal default `"[]"`
(src/server.py lines 528-586, 990-1031, 1033-1067). -/
theorem record_mapper_missing_fields_use_fixed_defaults {α : Type}
    (jsonLoads : String → Option α) (emptyArr : α)
    (hjson : jsonLoads "[]" = some emptyArr)
    (id : String) (props : PropBag) (n : Nat)
    (hwe : getProp props "work_experience" = none)
    (hed : getProp props "education" = none)
    (hsk : getProp props "skills" = none)
    (hlang : getProp props "languages" = none)
    (hloc : getProp props "location" = none) :
    (format_candidate jsonLoads id props = some
      { id := id
        name := pyStrip (getPropD props "firstname" "" ++ " " ++ getPropD props "lastname" "")
        first_name := getPropD props "firstname" ""
        last_name := getPropD props "lastname" ""
        email := getPropD props "email" ""
        phone := getPropD props "phone" ""
        age := getPropD props "age" ""
        location := ""
        professional_summary := getPropD props "professional_summary" ""
        skills := []
        languages := []
        work_experience := emptyArr
        education := emptyArr
        status := "available" }) ∧
    (format_job_order id props n).location = "Perth, Australia" ∧
    (format_candidate jsonLoads "C1" [] = some
      { id := "C1", name := "", first_name := "", last_name := "", email := ""
        phone := "", age := "", location := "", professional_summary := ""
        skills := [], languages := [], work_experience := emptyArr
        education := emptyArr, status := "available" }) ∧
    (format_job_order "J1" [] 7 =
      { id := "J1", title := "", description := "", position_type := "Full-time"
        location := "Perth, Australia", status := "Active", created_date := ""
        deadline := "", essential_requirements := [], preferred_requirements := []
        salary_range := "", benefits := "", candidate_count := 7
        company_id := none }) ∧
    (format_candidate_from_application "123" [] =
      { id := "123", application_id := "123", name := "Applicant 123"
        email := "applicant.123@email.com", status := "pending_review"
        application_status := "Active", application_date := "", age := 30
        location := "Perth, Australia"
        professional_summary :=
          "Professional applicant with relevant experience in the food industry."
        skills := ["Food Service", "Team Collaboration", "Customer Service"]
        job_order_id := none }) := by
  refine ⟨?_, ?_, ?_, ?_, ?_⟩
  · simp [format_candidate, getPropD, hwe, hed, hjson, splitListProp, hsk, hlang, hloc]
  · simp [format_job_order, getPropD, hloc]
  · simp [format_candidate, getPropD, getProp, splitListProp, hjson]
    decide
  · decide
  · decide

/-- Witness for C5: at a concrete JSON parser, property bag and record ids,
the theorem yields the Perth fallback for the missing location field. -/
theorem record_mapper_missing_fields_use_fixed_defaults_witness :
    (format_job_order "C7" [("firstname", "Jane")] 3).location = "Perth, Australia" :=
  (record_mapper_missing_fields_use_fixed_defaults
    (fun s => if s = "[]" then some ([] : List Nat) else none) []
    (by decide) "C7" [("firstname", "Jane")] 3
    (by decide) (by decide) (by decide) (by decide) (by decide)).2.1

/-! ## C6 -/

/-- C6 counterexample: the claim states that every successfully decoded
token has `{userId, companyId}` attached and the handler invoked.  A
validly signed token whose payload lacks the `user_id` claim decodes
successfully, yet `payload['user_id']` raises KeyError and the generic
handler rejects with 401 "Authentication failed"; the wrapped handler is
never invoked (src/server.py lines 1681-1682, 1690-1692). -/
theorem require_auth_decoded_token_without_claims_rejected :
    require_auth (some "Bearer tok") (fun _ => DecodeOutcome.ok []) =
      AuthOutcome.reject 401 "Authentication failed" := by
  decide

/-- C6 amended: `require_auth` follows the state machine — missing header
rejected 401; expired decode rejected 401 with the expired body; any
other decode failure rejected 401 with the invalid body; a successfully
decoded token whose claims include `user_id` and `company_id` has both
attached and the handler invoked — with the proviso that a header
without a second space-separated part, or a decoded payload missing
either claim, is rejected 401 with the generic authentication-failed
body (src/server.py lines 1669-1696). -/
theorem require_auth_state_machine (decode : String → DecodeOutcome)
    (h token : String) (payload : PropBag) (u c : String) :
    (require_auth none decode = AuthOutcome.reject 401 "No authorization header") ∧
    ((pySplit h " ")[1]? = none →
      require_auth (some h) decode = AuthOutcome.reject 401 "Authentication failed") ∧
    ((pySplit h " ")[1]? = some token → decode token = DecodeOutcome.expired →
      require_auth (some h) decode = AuthOutcome.reject 401 "Token expired") ∧
    ((pySplit h " ")[1]? = some token → decode token = DecodeOutcome.invalid →
      require_auth (some h) decode = AuthOutcome.reject 401 "Invalid token") ∧
    ((pySplit h " ")[1]? = some token → decode token = DecodeOutcome.ok payload →
      getProp payload "user_id" = some u →
      getProp payload "company_id" = some c →
      require_auth (some h) decode = AuthOutcome.proceed u c) ∧
    ((pySplit h " ")[1]? = some token → decode token = DecodeOutcome.ok payload →
      (getProp payload "user_id" = none ∨ getProp payload "company_id" = none) →
      require_auth (some h) decode = AuthOutcome.reject 401 "Authentication failed") := by
  refine ⟨?_, ?_, ?_, ?_, ?_, ?_⟩
  · rfl
  · intro hs
    simp [require_auth, hs]
  · intro hs hd
    simp [require_auth, hs, hd]
  · intro hs hd
    simp [require_auth, hs, hd]
  · intro hs hd hu hc
    simp [require_auth, hs, hd, hu, hc]
  · intro hs hd hmiss
    rcases hmiss with hm | hm
    · simp [require_auth, hs, hd, hm]
    · cases hgu : getProp payload "user_id" <;>
        simp [require_auth, hs, hd, hm, hgu]

/-- Witness for C6: a well-formed bearer header whose token decodes to a
payload carrying both claims proceeds to the handler with those claims. -/
theorem require_auth_state_machine_witness :
    require_auth (some "Bearer good")
      (fun t => if t = "good"
        then DecodeOutcome.ok [("user_id", "U1"), ("company_id", "K9")]
        else DecodeOutcome.invalid) =
      AuthOutcome.proceed "U1" "K9" :=
  (require_auth_state_machine
    (fun t => if t = "good"
      then DecodeOutcome.ok [("user_id", "U1"), ("company_id", "K9")]
      else DecodeOutcome.invalid)
    "Bearer good" "good" [("user_id", "U1"), ("company_id", "K9")] "U1" "K9").2.2.2.2.1
    (by decide) (by decide) (by decide) (by decide)

/-! ## C7 -/

/-- C7 counterexample: the claim states that every login request whose
email is not on the allow-list is rejected with 403.  A request with a
non-allow-listed email but an empty password is rejected 400 by the
field-presence check, which runs before the allow-list consultation
(src/server.py lines 1742-1749). -/
theorem login_nonallowlisted_empty_password_gets_400 :
    login ["tim.schibli@tprc.com.au"] (some "eve@example.com") (some "")
      (fun _ => LoginResult.err 401 "Invalid credentials - Contact not found in HubSpot")
      = LoginResult.err 400 "Email and password required" ∧
    login ["tim.schibli@tprc.com.au"] (some "eve@example.com") (some "")
      (fun _ => LoginResult.err 401 "Invalid credentials - Contact not found in HubSpot")
      ≠ LoginResult.err 403 "Access denied. Contact TPRC for portal access." := by
  decide

/-- C7 amended: every login request carrying a non-empty email and a
non-empty password whose email is not on the allow-list is rejected 403
with no token issued, whatever the password and whatever the CRM-backed
authentication tail would do — the allow-list check runs before any
credential verification or token minting; requests missing the email or
the password are rejected 400 with no token before the allow-list is
even consulted (src/server.py lines 1734-1790). -/
theorem login_allowlist_rejects_before_credentials
    (authorized_emails : List String) (e p : String)
    (hubspot_branch : String → LoginResult)
    (he : e ≠ "") (hp : p ≠ "") (hmem : e ∉ authorized_emails) :
    login authorized_emails (some e) (some p) hubspot_branch =
      LoginResult.err 403 "Access denied. Contact TPRC for portal access." ∧
    login authorized_emails none (some p) hubspot_branch =
      LoginResult.err 400 "Email and password required" ∧
    login authorized_emails (some e) none hubspot_branch =
      LoginResult.err 400 "Email and password required" := by
  refine ⟨?_, ?_, ?_⟩
  · simp [login, he, hp, hmem]
  · simp [login]
  · simp [login]

/-- Witness for C7: a concrete non-allow-listed email with a concrete
password is rejected 403 regardless of the CRM authentication tail. -/
theorem login_allowlist_rejects_before_credentials_witness :
    login ["tim.schibli@tprc.com.au"] (some "mallory@example.com") (some "hunter2")
      (fun _ => LoginResult.okToken "X" "Y" "mallory@example.com" "M" "Evil Co") =
      LoginResult.err 403 "Access denied. Contact TPRC for portal access." :=
  (login_allowlist_rejects_before_credentials
    ["tim.schibli@tprc.com.au"] "mallory@example.com" "hunter2"
    (fun _ => LoginResult.okToken "X" "Y" "mallory@example.com" "M" "Evil Co")
    (by decide) (by decide) (by decide)).1
